import Mathlib


/-!
Shallow embedding of `mesh_ingester.py`: the CSV row-validation and
exclusion pipeline.  Raw cell values coming out of `pandas.read_csv`
are modelled by `PyVal` (a string cell, a missing cell `vnan`, and the
coerced values the pipeline writes back: floats, booleans, ints, the
Python `None`, and lists of strings).  Python exceptions are modelled
by `PyError`; the per-row `try/except ValueError` blocks catch only
`valueError`, every other exception propagates out of the pipeline,
exactly as in the source.
-/

inductive PyVal where
  | vstr (s : String)
  | vnum (q : Rat)
  | vnan
  | vbool (b : Bool)
  | vnone
  | vint (n : Int)
  | vlist (xs : List String)
deriving DecidableEq

inductive PyError where
  | valueError (msg : String)
  | typeError (msg : String)
  | attributeError (msg : String)
deriving DecidableEq

/-- Python `pd.isnull` / `pd.isna`: true exactly on NaN cells and `None`. -/
def pyIsNull : PyVal → Bool
  | .vnan => true
  | .vnone => true
  | _ => false

/-- A finite float or NaN: the possible results of Python `float(...)`. -/
inductive PyFloat where
  | fin (q : Rat)
  | nan
deriving DecidableEq

def natOfDigits (cs : List Char) : Nat :=
  cs.foldl (fun acc c => acc * 10 + (c.toNat - 48)) 0

/-- Python `str.strip()`: drop surrounding whitespace. -/
def pyStrip (s : String) : String :=
  String.mk (((s.toList.dropWhile Char.isWhitespace).reverse.dropWhile Char.isWhitespace).reverse)

/-- Python `str.lower()`. -/
def pyLower (s : String) : String :=
  String.mk (s.toList.map Char.toLower)

def splitOnCommaAux : List Char → List Char → List String
  | [], acc => [String.mk acc.reverse]
  | c :: cs, acc =>
      if c = ',' then String.mk acc.reverse :: splitOnCommaAux cs []
      else splitOnCommaAux cs (c :: acc)

/-- Python `str.split(',')`: e.g. `""` gives `[""]`, `"a,,b"` gives
`["a", "", "b"]`. -/
def pySplitComma (s : String) : List String :=
  splitOnCommaAux s.toList []

/-- Decimal part of Python `float` parsing: digits, optionally a dot and
more digits, at least one digit overall; the value is all digits read
as an integer, scaled down by the fractional length.  Exponent and
inf/nan literal forms are not used by the pipeline and not modelled. -/
def parseUnsignedFloat (cs : List Char) : Option Rat :=
  let intPart := cs.takeWhile Char.isDigit
  let rest := cs.dropWhile Char.isDigit
  match rest with
  | [] => if intPart.isEmpty then none else some (mkRat (natOfDigits intPart) 1)
  | '.' :: frac =>
      if frac.all Char.isDigit && !(intPart.isEmpty && frac.isEmpty) then
        some (mkRat (natOfDigits (intPart ++ frac)) (10 ^ frac.length))
      else none
  | _ => none

/-- Python `float(s)` on a string: strip whitespace, optional sign,
decimal digits with an optional fractional part. -/
def parseFloatStr (s : String) : Option Rat :=
  match (pyStrip s).toList with
  | '-' :: rest => (parseUnsignedFloat rest).map (fun q => -q)
  | '+' :: rest => parseUnsignedFloat rest
  | cs => parseUnsignedFloat cs

/-- Python `int(s)` on a string: strip whitespace, optional sign, digits. -/
def parseIntStr (s : String) : Option Int :=
  match (pyStrip s).toList with
  | '-' :: rest =>
      if !rest.isEmpty && rest.all Char.isDigit then some (-(natOfDigits rest : Int)) else none
  | '+' :: rest =>
      if !rest.isEmpty && rest.all Char.isDigit then some ((natOfDigits rest : Int)) else none
  | cs =>
      if !cs.isEmpty && cs.all Char.isDigit then some ((natOfDigits cs : Int)) else none

/-- Smallest exponent `k` with `d` dividing `10 ^ k` (denominators of
parsed floats always divide a power of ten). -/
def decExp (d : Nat) : Nat :=
  (((List.range 64).find? (fun k => 10 ^ k % d == 0)).getD 0)

def stripTrailingZeros (cs : List Char) : List Char :=
  (cs.reverse.dropWhile (fun c => c == '0')).reverse

def padToLength (k : Nat) (s : String) : List Char :=
  List.replicate (k - s.length) '0' ++ s.toList

/-- Python `str` / `repr` of a finite float: always shows a decimal
point, e.g. `-3.0`, `12.5`, `2.0`. -/
def formatFloat (q : Rat) : String :=
  let k := decExp q.den
  let scaled := q.num.natAbs * (10 ^ k / q.den)
  let ip := scaled / 10 ^ k
  let fp := scaled % 10 ^ k
  let frac :=
    let t := stripTrailingZeros (padToLength k (Nat.repr fp))
    if t.isEmpty then "0" else String.mk t
  (if q.num < 0 then "-" else "") ++ Nat.repr ip ++ "." ++ frac

def pyFloatStr : PyFloat → String
  | .fin q => formatFloat q
  | .nan => "nan"

/-- Python `str(value)`, as used by the f-strings of the validators. -/
def pyStr : PyVal → String
  | .vstr s => s
  | .vnum q => formatFloat q
  | .vnan => "nan"
  | .vbool b => if b then "True" else "False"
  | .vnone => "None"
  | .vint n => Int.repr n
  | .vlist xs => "[" ++ String.intercalate ", " (xs.map (fun s => "\x27" ++ s ++ "\x27")) ++ "]"

def pyTypeName : PyVal → String
  | .vstr _ => "str"
  | .vnum _ => "float"
  | .vnan => "float"
  | .vbool _ => "bool"
  | .vnone => "NoneType"
  | .vint _ => "int"
  | .vlist _ => "list"

/-- Python `float(value)` on a cell value.  NaN cells give NaN; strings
are parsed (`ValueError` on failure); `None` and lists raise `TypeError`. -/
def pyFloat : PyVal → Except PyError PyFloat
  | .vstr s =>
      match parseFloatStr s with
      | some q => .ok (.fin q)
      | none => .error (.valueError ("could not convert string to float: \x27" ++ s ++ "\x27"))
  | .vnum q => .ok (.fin q)
  | .vnan => .ok .nan
  | .vbool b => .ok (.fin (if b then 1 else 0))
  | .vint n => .ok (.fin (mkRat n 1))
  | .vnone => .error (.typeError "float() argument must be a string or a real number, not NoneType")
  | .vlist _ => .error (.typeError "float() argument must be a string or a real number, not list")

/-- Python `float < 0` comparison; false for NaN, as in Python. -/
def pyFloatLtZero : PyFloat → Bool
  | .fin q => Rat.blt q 0
  | .nan => false

def pyFloatVal : PyFloat → PyVal
  | .fin q => .vnum q
  | .nan => .vnan

/-- Python `int(value)` on a cell value. -/
def pyInt : PyVal → Except PyError Int
  | .vstr s =>
      match parseIntStr s with
      | some n => .ok n
      | none => .error (.valueError ("invalid literal for int() with base 10: \x27" ++ s ++ "\x27"))
  | .vint n => .ok n
  | .vbool b => .ok (if b then 1 else 0)
  | .vnum q => .ok (Int.tdiv q.num (q.den : Int))
  | .vnan => .error (.valueError "cannot convert float NaN to integer")
  | .vnone => .error (.typeError "int() argument must be a string, a bytes-like object or a real number, not NoneType")
  | .vlist _ => .error (.typeError "int() argument must be a string, a bytes-like object or a real number, not list")

/-- `convert_and_validate_colors` (mesh_ingester.py, lines 21-26):
splits the raw cell on commas and accepts iff every element, after
`strip()`, is in `possible_colors`; on success it returns the split
list itself (untrimmed).  On a non-string cell (e.g. a NaN from a
missing value) Python's `.split` attribute lookup raises
`AttributeError`, which the function does not catch. -/
def convert_and_validate_colors (color_names_str : PyVal) (possible_colors : List String) :
    Except PyError PyVal :=
  match color_names_str with
  | .vstr s =>
      let colors_list := pySplitComma s
      if colors_list.all (fun color => possible_colors.contains (pyStrip color)) then
        .ok (.vlist colors_list)
      else
        .error (.valueError ("Invalid color names in the list. Got " ++ s))
  | v => .error (.attributeError
      ("\x27" ++ pyTypeName v ++ "\x27 object has no attribute \x27split\x27"))

/-- `validate_trame` (lines 28-30): membership test of the raw value in
`valid_values` (a list of strings; a non-string cell is never equal to
any of them, as in Python). -/
def validate_trame (value : PyVal) (valid_values : List String) : Except PyError Unit :=
  match value with
  | .vstr s =>
      if valid_values.contains s then .ok ()
      else .error (.valueError ("Value " ++ s ++ " for trame is not valid."))
  | v => .error (.valueError ("Value " ++ pyStr v ++ " for trame is not valid."))

/-- `validate_mass_surf` (lines 32-39).  NOTE the source's control flow:
the `raise ValueError("mass_surf must be non-negative...")` sits inside
the `try`, so it is caught by the function's own `except ValueError`
and replaced by the "must be a float" message. -/
def validate_mass_surf (value : PyVal) : Except PyError PyVal :=
  let body : Except PyError PyVal :=
    match pyFloat value with
    | .error e => .error e
    | .ok mass_surf_value =>
        if pyFloatLtZero mass_surf_value then
          .error (.valueError ("mass_surf must be non-negative. Got " ++ pyFloatStr mass_surf_value))
        else
          .ok (pyFloatVal mass_surf_value)
  match body with
  | .error (.valueError _) => .error (.valueError ("mass_surf must be a float. Got " ++ pyStr value))
  | r => r

/-- `validate_bool` (lines 41-49): `str(value).lower()` membership in the
literal synonym lists; the Python lists also hold the ints `1` and `0`,
which never compare equal to a string. -/
def validate_bool (value : PyVal) : Except PyError PyVal :=
  let true_values : List PyVal := [.vstr "vrai", .vstr "true", .vint 1, .vstr "1"]
  let false_values : List PyVal := [.vstr "faux", .vstr "false", .vint 0, .vstr "0"]
  if true_values.contains (.vstr (pyLower (pyStr value))) then .ok (.vbool true)
  else if false_values.contains (.vstr (pyLower (pyStr value))) then .ok (.vbool false)
  else .error (.valueError ("Expected boolean value. Got " ++ pyStr value))

/-- `validate_positive_float` (lines 51-58): same shape as
`validate_mass_surf`, with the field name in the messages; the
non-negative message is likewise swallowed by the `except ValueError`. -/
def validate_positive_float (value : PyVal) (field_name : String) : Except PyError PyVal :=
  let body : Except PyError PyVal :=
    match pyFloat value with
    | .error e => .error e
    | .ok float_value =>
        if pyFloatLtZero float_value then
          .error (.valueError (field_name ++ " must be non-negative. Got " ++ pyFloatStr float_value))
        else
          .ok (pyFloatVal float_value)
  match body with
  | .error (.valueError _) =>
      .error (.valueError (field_name ++ " must be a float. Got " ++ pyStr value))
  | r => r

/-- `validate_optional_int` (lines 60-66): missing or empty means `None`
(not an error); otherwise parse as an integer, converting a parse
`ValueError` into the "Expected integer value" message. -/
def validate_optional_int (value : PyVal) : Except PyError PyVal :=
  if pyIsNull value = true ∨ value = .vstr "" then .ok .vnone
  else
    match pyInt value with
    | .ok n => .ok (.vint n)
    | .error (.valueError _) => .error (.valueError ("Expected integer value. Got " ++ pyStr value))
    | .error e => .error e

/-!
The dataframe model: one `Row` per CSV data line, in file order.  The
fixed constants and the batch pipeline `ingest_and_validate_csv`
(mesh_ingester.py, lines 68-128) follow.
-/

structure Row where
  codename : PyVal
  trame : PyVal
  mass_surf : PyVal
  is_compat_interior_wall : PyVal
  mesh_height : PyVal
  mesh_width : PyVal
  roll_pallet : PyVal
  color_names : PyVal
deriving DecidableEq

def required_fields : List String :=
  ["codename", "trame", "mass_surf", "is_compat_interior_wall",
   "mesh_height", "mesh_width", "color_names"]

def valid_trames : List String :=
  ["T2 Ra1 M2 E2", "T2 Ra1 M4 E2", "T2 Ra1 M4 E3"]

def valid_colors : List String :=
  ["white", "yellow", "green", "purple", "red", "blue", "orange", "magenta",
   "dark", "grey", "cyan"]

/-- `row[column]` for the column names used by the presence loop. -/
def rowGet (r : Row) : String → PyVal
  | "codename" => r.codename
  | "trame" => r.trame
  | "mass_surf" => r.mass_surf
  | "is_compat_interior_wall" => r.is_compat_interior_wall
  | "mesh_height" => r.mesh_height
  | "mesh_width" => r.mesh_width
  | "roll_pallet" => r.roll_pallet
  | "color_names" => r.color_names
  | _ => .vnone

/-- The message `f"Empty value at line {i + 1} for '{column}'."`. -/
def emptyMsg (i : Nat) (column : String) : String :=
  "Empty value at line " ++ Nat.repr (i + 1) ++ " for \x27" ++ column ++ "\x27."

/-- The message `f"Duplicate codename found at line {i + 1}."`. -/
def dupMsg (i : Nat) : String :=
  "Duplicate codename found at line " ++ Nat.repr (i + 1) ++ "."

/-- The message `f"Error at line {i+1}: {e}"`. -/
def errLine (i : Nat) (m : String) : String :=
  "Error at line " ++ Nat.repr (i + 1) ++ ": " ++ m

/-- The presence loop (lines 82-84): one `Empty value` message per
required field that is null, in the fixed field order. -/
def presence_errors (i : Nat) (row : Row) : List String :=
  required_fields.filterMap (fun column =>
    if pyIsNull (rowGet row column) then some (emptyMsg i column) else none)

/-- `df['codename'].duplicated(keep=False)` consulted at one row: true
iff the row's codename occurs at least twice in the whole batch's
codename column (pandas treats NaN codenames as equal to each other). -/
def dupFlag (codes : List PyVal) (r : Row) : Bool :=
  decide (2 ≤ codes.count r.codename)

/-- One `try: df.at[i, col] = validator(...) except ValueError as e:`
block: on success the coerced value is stored, a `ValueError` becomes a
row error, any other exception propagates. -/
def tryBlock (i : Nat) (st : Row × List String) (res : Except PyError PyVal)
    (store : Row → PyVal → Row) : Except PyError (Row × List String) :=
  match res with
  | .ok v => .ok (store st.1 v, st.2)
  | .error (.valueError m) => .ok (st.1, st.2 ++ [errLine i m])
  | .error e => .error e

/-- The `validate_trame` try-block (lines 89-92): nothing is stored. -/
def tryBlockU (i : Nat) (st : Row × List String) (res : Except PyError Unit) :
    Except PyError (Row × List String) :=
  match res with
  | .ok _ => .ok st
  | .error (.valueError m) => .ok (st.1, st.2 ++ [errLine i m])
  | .error e => .error e

/-- The shared try-block of lines 104-108: `mesh_height` is validated
and stored first; only if that succeeds is `mesh_width` validated, so a
`mesh_height` failure suppresses the `mesh_width` check, and a
`mesh_width` failure still keeps the already-stored `mesh_height`. -/
def meshBlock (i : Nat) (row : Row) (st : Row × List String) :
    Except PyError (Row × List String) :=
  match validate_positive_float row.mesh_height "mesh_height" with
  | .error (.valueError m) => .ok (st.1, st.2 ++ [errLine i m])
  | .error e => .error e
  | .ok hv =>
      match validate_positive_float row.mesh_width "mesh_width" with
      | .error (.valueError m) => .ok ({ st.1 with mesh_height := hv }, st.2 ++ [errLine i m])
      | .error e => .error e
      | .ok wv => .ok ({ st.1 with mesh_height := hv, mesh_width := wv }, st.2)

/-- One iteration of the `for i, row in df.iterrows()` loop (lines
79-118): the presence loop, the duplicate check, then the six
try-blocks in source order, reading the row snapshot and writing the
coerced values.  Returns the updated row and its `row_errors`. -/
def validateRow (i : Nat) (dup : Bool) (row : Row) : Except PyError (Row × List String) := do
  let errs0 := presence_errors i row
  let errs1 := errs0 ++ (if dup then [dupMsg i] else [])
  let st2 ← tryBlockU i (row, errs1) (validate_trame row.trame valid_trames)
  let st3 ← tryBlock i st2 (validate_mass_surf row.mass_surf)
    (fun r v => { r with mass_surf := v })
  let st4 ← tryBlock i st3 (validate_bool row.is_compat_interior_wall)
    (fun r v => { r with is_compat_interior_wall := v })
  let st5 ← meshBlock i row st4
  let st6 ← tryBlock i st5 (validate_optional_int row.roll_pallet)
    (fun r v => { r with roll_pallet := v })
  tryBlock i st6 (convert_and_validate_colors row.color_names valid_colors)
    (fun r v => { r with color_names := v })

/-- The whole row loop: pairs each processed row with its `exclude`
flag (lines 120-123: excluded iff `row_errors` is non-empty) and
accumulates `error_messages` in row order.  An uncaught exception from
any row aborts the whole run, as in Python. -/
def runRows (codes : List PyVal) : Nat → List Row →
    Except PyError (List (Row × Bool) × List String)
  | _, [] => .ok ([], [])
  | i, r :: rs =>
      match validateRow i (dupFlag codes r) r with
      | .error e => .error e
      | .ok (r2, row_errors) =>
          match runRows codes (i + 1) rs with
          | .error e => .error e
          | .ok (rest, msgs) => .ok ((r2, !row_errors.isEmpty) :: rest, row_errors ++ msgs)

/-- `ingest_and_validate_csv` (lines 68-128) on the parsed dataframe:
runs the loop and then drops the rows marked excluded (line 125),
returning the filtered dataframe and the collected error messages. -/
def ingest_and_validate_csv (df : List Row) : Except PyError (List Row × List String) :=
  match runRows (df.map (fun r => r.codename)) 0 df with
  | .error e => .error e
  | .ok (pairs, error_messages) =>
      .ok ((pairs.filter (fun p => !p.2)).map (fun p => p.1), error_messages)

/-- Observable behaviour of `main` (lines 156-166): which lines are
printed, whether the persistence sink (`insert_data_to_db`) is invoked,
and which rows it receives. -/
structure MainOut where
  printed : List String
  sink_called : Bool
  inserted : List Row
deriving DecidableEq

/-- `main` (lines 156-166): on any error message, print the report and
skip the sink; otherwise hand every surviving row to the sink and
print the confirmation. -/
def mainRun (df : List Row) : Except PyError MainOut :=
  match ingest_and_validate_csv df with
  | .error e => .error e
  | .ok (vdf, error_messages) =>
      if error_messages.isEmpty then
        .ok { printed := ["Data ingested and validated successfully."],
              sink_called := true, inserted := vdf }
      else
        .ok { printed := "Errors encountered:" :: error_messages,
              sink_called := false, inserted := [] }

def exRow : Row :=
  { codename := .vstr "A1", trame := .vstr "T2 Ra1 M2 E2", mass_surf := .vstr "12.5",
    is_compat_interior_wall := .vstr "vrai", mesh_height := .vstr "2.0",
    mesh_width := .vstr "1.0", roll_pallet := .vnan, color_names := .vstr "white,blue" }

def exRowCoerced : Row :=
  { codename := .vstr "A1", trame := .vstr "T2 Ra1 M2 E2", mass_surf := .vnum (mkRat 25 2),
    is_compat_interior_wall := .vbool true, mesh_height := .vnum 2,
    mesh_width := .vnum 1, roll_pallet := .vnone, color_names := .vlist ["white", "blue"] }

/-!
Characterization layer: total functions computing what one loop
iteration stores (`coercedRow`) and which error messages it appends
(`rowMsgs`), and lemmas showing that a successful run of the
transcribed pipeline produces exactly these.  `rowMsgs` is a
concatenation of independent per-check components: no check's failure
affects another component, except that the shared mesh try-block makes
`meshMsgs` drop the `mesh_width` check when `mesh_height` fails.
-/

def veMsgs {α : Type} (i : Nat) (res : Except PyError α) : List String :=
  match res with
  | .error (.valueError m) => [errLine i m]
  | _ => []

def storeOk (r : Row) (res : Except PyError PyVal) (store : Row → PyVal → Row) : Row :=
  match res with
  | .ok v => store r v
  | .error _ => r

def meshStore (row cur : Row) : Row :=
  match validate_positive_float row.mesh_height "mesh_height" with
  | .ok hv =>
      match validate_positive_float row.mesh_width "mesh_width" with
      | .ok wv => { cur with mesh_height := hv, mesh_width := wv }
      | .error _ => { cur with mesh_height := hv }
  | .error _ => cur

def meshMsgs (i : Nat) (row : Row) : List String :=
  match validate_positive_float row.mesh_height "mesh_height" with
  | .error (.valueError m) => [errLine i m]
  | .error _ => []
  | .ok _ => veMsgs i (validate_positive_float row.mesh_width "mesh_width")

def coercedRow (row : Row) : Row :=
  storeOk
    (storeOk
      (meshStore row
        (storeOk
          (storeOk row (validate_mass_surf row.mass_surf) (fun r v => { r with mass_surf := v }))
          (validate_bool row.is_compat_interior_wall)
          (fun r v => { r with is_compat_interior_wall := v })))
      (validate_optional_int row.roll_pallet) (fun r v => { r with roll_pallet := v }))
    (convert_and_validate_colors row.color_names valid_colors)
    (fun r v => { r with color_names := v })

def rowMsgs (i : Nat) (dup : Bool) (row : Row) : List String :=
  presence_errors i row ++ (if dup then [dupMsg i] else []) ++
  veMsgs i (validate_trame row.trame valid_trames) ++
  veMsgs i (validate_mass_surf row.mass_surf) ++
  veMsgs i (validate_bool row.is_compat_interior_wall) ++
  meshMsgs i row ++
  veMsgs i (validate_optional_int row.roll_pallet) ++
  veMsgs i (convert_and_validate_colors row.color_names valid_colors)

def codesOf (df : List Row) : List PyVal := df.map (fun r => r.codename)

/-- The error messages a row at position `mr.1` contributes. -/
def rowSpecMsgs (df : List Row) (mr : Nat × Row) : List String :=
  rowMsgs mr.1 (dupFlag (codesOf df) mr.2) mr.2

/-- The full `error_messages` report of a completed run. -/
def msgsSpec (df : List Row) : List String :=
  ((df.enum).map (rowSpecMsgs df)).flatten

/-- The filtered dataframe of a completed run: the coerced rows whose
error list is empty, in original order. -/
def vdfSpec (df : List Row) : List Row :=
  (((df.enum).map (fun mr => (coercedRow mr.2, !(rowSpecMsgs df mr).isEmpty))).filter
    (fun p => !p.2)).map (fun p => p.1)

/-- The stored cell after one try-block: the coerced value on success,
the original cell otherwise. -/
def coVal (orig : PyVal) (res : Except PyError PyVal) : PyVal :=
  match res with
  | .ok v => v
  | .error _ => orig

/-- Field-by-field description of the row the loop leaves behind:
every validator that succeeds has its value stored (even if the row is
excluded for other reasons), `mesh_width` is only stored when
`mesh_height` succeeded, `codename` and `trame` are never written. -/
def coercedSpec (r : Row) : Row :=
  { codename := r.codename
    trame := r.trame
    mass_surf := coVal r.mass_surf (validate_mass_surf r.mass_surf)
    is_compat_interior_wall :=
      coVal r.is_compat_interior_wall (validate_bool r.is_compat_interior_wall)
    mesh_height := coVal r.mesh_height (validate_positive_float r.mesh_height "mesh_height")
    mesh_width :=
      match validate_positive_float r.mesh_height "mesh_height" with
      | .ok _ => coVal r.mesh_width (validate_positive_float r.mesh_width "mesh_width")
      | .error _ => r.mesh_width
    roll_pallet := coVal r.roll_pallet (validate_optional_int r.roll_pallet)
    color_names := coVal r.color_names (convert_and_validate_colors r.color_names valid_colors) }

def c1row : Row :=
  { codename := .vstr "A1", trame := .vstr "T2 Ra1 M2 E2", mass_surf := .vstr "1",
    is_compat_interior_wall := .vstr "true", mesh_height := .vstr "abc",
    mesh_width := .vstr "xyz", roll_pallet := .vnan, color_names := .vstr "white" }

def c1coerced : Row :=
  { codename := .vstr "A1", trame := .vstr "T2 Ra1 M2 E2", mass_surf := .vnum 1,
    is_compat_interior_wall := .vbool true, mesh_height := .vstr "abc",
    mesh_width := .vstr "xyz", roll_pallet := .vnone, color_names := .vlist ["white"] }

def c3row : Row :=
  { codename := .vstr "A1", trame := .vstr "T2 Ra1 M2 E2", mass_surf := .vstr "12.5",
    is_compat_interior_wall := .vstr "vrai", mesh_height := .vstr "2.0",
    mesh_width := .vstr "1.0", roll_pallet := .vnan, color_names := .vnan }

def c9row : Row :=
  { codename := .vstr "A1", trame := .vnan, mass_surf := .vstr "12.5",
    is_compat_interior_wall := .vstr "vrai", mesh_height := .vstr "2.0",
    mesh_width := .vstr "1.0", roll_pallet := .vnan, color_names := .vstr "white,blue" }

def c10row : Row :=
  { codename := .vnan, trame := .vstr "T2 Ra1 M2 E2", mass_surf := .vstr "12.5",
    is_compat_interior_wall := .vstr "vrai", mesh_height := .vstr "2.0",
    mesh_width := .vstr "1.0", roll_pallet := .vnan, color_names := .vstr "white,blue" }

def c5row : Row :=
  { codename := .vstr "B2", trame := .vstr "T2 Ra1 M2 E2", mass_surf := .vstr "-3",
    is_compat_interior_wall := .vstr "vrai", mesh_height := .vstr "2.0",
    mesh_width := .vstr "1.0", roll_pallet := .vnan, color_names := .vstr "white,blue" }

def c5out : MainOut :=
  { printed := ["Errors encountered:", "Error at line 2: mass_surf must be a float. Got -3"],
    sink_called := false, inserted := [] }

example : parseFloatStr "-3" = some (mkRat (-3) 1) := by decide
example : formatFloat (mkRat (-3) 1) = "-3.0" := rfl
example : formatFloat (mkRat 25 2) = "12.5" := rfl
example : validate_mass_surf (.vstr "-3") =
    .error (.valueError "mass_surf must be a float. Got -3") := rfl
example : validate_mass_surf (.vstr "12.5") = .ok (.vnum (mkRat 25 2)) := rfl
example : validate_mass_surf .vnan = .ok .vnan := rfl
example : validate_bool (.vstr "vrai") = .ok (.vbool true) := rfl
example : validate_bool .vnan =
    .error (.valueError "Expected boolean value. Got nan") := rfl
example : convert_and_validate_colors (.vstr "white, blue") ["white", "blue"] =
    .ok (.vlist ["white", " blue"]) := rfl
example : convert_and_validate_colors .vnan ["white"] =
    .error (.attributeError "\x27float\x27 object has no attribute \x27split\x27") := rfl
example : validate_optional_int .vnan = .ok .vnone := rfl
example : validate_optional_int (.vstr "abc") =
    .error (.valueError "Expected integer value. Got abc") := rfl

example : ingest_and_validate_csv [exRow] = .ok ([exRowCoerced], []) := rfl
example : mainRun [exRow] =
    .ok { printed := ["Data ingested and validated successfully."],
          sink_called := true, inserted := [exRowCoerced] } := rfl

theorem bind_ok {α β : Type} {x : Except PyError α} {f : α → Except PyError β} {b : β}
    (h : x >>= f = .ok b) : ∃ a, x = .ok a ∧ f a = .ok b := by
  cases x with
  | ok a => exact ⟨a, rfl, h⟩
  | error e => exact Except.noConfusion h

theorem tryBlock_ok {i : Nat} {st : Row × List String} {res : Except PyError PyVal}
    {store : Row → PyVal → Row} {st' : Row × List String}
    (h : tryBlock i st res store = .ok st') :
    st' = (storeOk st.1 res store, st.2 ++ veMsgs i res) := by
  cases res with
  | ok v =>
      simp only [tryBlock] at h
      cases h
      simp [storeOk, veMsgs]
  | error e =>
      cases e with
      | valueError m =>
          simp only [tryBlock] at h
          cases h
          simp [storeOk, veMsgs]
      | typeError m => exact Except.noConfusion h
      | attributeError m => exact Except.noConfusion h

theorem tryBlockU_ok {i : Nat} {st : Row × List String} {res : Except PyError Unit}
    {st' : Row × List String} (h : tryBlockU i st res = .ok st') :
    st' = (st.1, st.2 ++ veMsgs i res) := by
  cases res with
  | ok v =>
      simp only [tryBlockU] at h
      cases h
      simp [veMsgs]
  | error e =>
      cases e with
      | valueError m =>
          simp only [tryBlockU] at h
          cases h
          simp [veMsgs]
      | typeError m => exact Except.noConfusion h
      | attributeError m => exact Except.noConfusion h

theorem meshBlock_ok {i : Nat} {row : Row} {st st' : Row × List String}
    (h : meshBlock i row st = .ok st') :
    st' = (meshStore row st.1, st.2 ++ meshMsgs i row) := by
  unfold meshBlock at h
  unfold meshStore meshMsgs
  cases hh : validate_positive_float row.mesh_height "mesh_height" with
  | error e =>
      rw [hh] at h
      cases e with
      | valueError m => cases h; simp
      | typeError m => exact Except.noConfusion h
      | attributeError m => exact Except.noConfusion h
  | ok hv =>
      rw [hh] at h
      cases hw : validate_positive_float row.mesh_width "mesh_width" with
      | error e =>
          rw [hw] at h
          cases e with
          | valueError m => cases h; simp [veMsgs]
          | typeError m => exact Except.noConfusion h
          | attributeError m => exact Except.noConfusion h
      | ok wv =>
          rw [hw] at h
          cases h
          simp [veMsgs]

theorem validateRow_ok {i : Nat} {dup : Bool} {row : Row} {out : Row × List String}
    (h : validateRow i dup row = .ok out) :
    out = (coercedRow row, rowMsgs i dup row) := by
  simp only [validateRow] at h
  obtain ⟨st2, h1, h⟩ := bind_ok h
  obtain ⟨st3, h2, h⟩ := bind_ok h
  obtain ⟨st4, h3, h⟩ := bind_ok h
  obtain ⟨st5, h4, h⟩ := bind_ok h
  obtain ⟨st6, h5, h⟩ := bind_ok h
  obtain rfl := tryBlockU_ok h1
  obtain rfl := tryBlock_ok h2
  obtain rfl := tryBlock_ok h3
  obtain rfl := meshBlock_ok h4
  obtain rfl := tryBlock_ok h5
  obtain rfl := tryBlock_ok h
  simp [coercedRow, rowMsgs, List.append_assoc]

theorem runRows_ok {codes : List PyVal} {rs : List Row} :
    ∀ {k : Nat} {prs : List (Row × Bool)} {msgs : List String},
    runRows codes k rs = .ok (prs, msgs) →
    prs = (rs.enumFrom k).map
        (fun mr => (coercedRow mr.2, !(rowMsgs mr.1 (dupFlag codes mr.2) mr.2).isEmpty)) ∧
    msgs = ((rs.enumFrom k).map (fun mr => rowMsgs mr.1 (dupFlag codes mr.2) mr.2)).flatten := by
  induction rs with
  | nil =>
      intro k prs msgs h
      simp only [runRows] at h
      cases h
      simp [List.enumFrom]
  | cons r rs ih =>
      intro k prs msgs h
      simp only [runRows] at h
      cases hv : validateRow k (dupFlag codes r) r with
      | error e => rw [hv] at h; exact Except.noConfusion h
      | ok pr =>
          rw [hv] at h
          obtain ⟨r2, row_errors⟩ := pr
          cases hr : runRows codes (k + 1) rs with
          | error e => rw [hr] at h; exact Except.noConfusion h
          | ok pm =>
              obtain ⟨rest, msgs'⟩ := pm
              rw [hr] at h
              cases h
              have hrow := validateRow_ok hv
              rw [Prod.mk.injEq] at hrow
              obtain ⟨hrest, hmsgs⟩ := ih hr
              simp [List.enumFrom, hrow.1, hrow.2, hrest, hmsgs]

theorem ingest_ok {df : List Row} {vdf : List Row} {msgs : List String}
    (h : ingest_and_validate_csv df = .ok (vdf, msgs)) :
    vdf = vdfSpec df ∧ msgs = msgsSpec df := by
  unfold ingest_and_validate_csv at h
  cases hr : runRows (df.map (fun r => r.codename)) 0 df with
  | error e => rw [hr] at h; exact Except.noConfusion h
  | ok pm =>
      obtain ⟨pairs, error_messages⟩ := pm
      rw [hr] at h
      cases h
      obtain ⟨hp, hm⟩ := runRows_ok hr
      constructor
      · rw [hp]; rfl
      · rw [hm]; rfl

theorem mem_enumFrom_of_get? {α : Type} {rs : List α} :
    ∀ {k i : Nat} {a : α}, rs.get? i = some a → (k + i, a) ∈ rs.enumFrom k := by
  induction rs with
  | nil => intro k i a h; exact Option.noConfusion h
  | cons x xs ih =>
      intro k i a h
      cases i with
      | zero =>
          rw [List.get?] at h
          cases h
          simp [List.enumFrom]
      | succ n =>
          rw [List.get?] at h
          have hmem := ih (k := k + 1) h
          have : k + 1 + n = k + (n + 1) := by omega
          rw [this] at hmem
          simp [List.enumFrom]
          exact hmem

theorem mem_enum_of_get? {α : Type} {rs : List α} {i : Nat} {a : α}
    (h : rs.get? i = some a) : (i, a) ∈ rs.enum := by
  have hmem := mem_enumFrom_of_get? (k := 0) h
  rw [Nat.zero_add] at hmem
  exact hmem

theorem two_le_count_of_get? {α : Type} [DecidableEq α] {l : List α} :
    ∀ {i j : Nat} {a : α}, i ≠ j → l.get? i = some a → l.get? j = some a →
    2 ≤ l.count a := by
  induction l with
  | nil => intro i j a _ h; exact Option.noConfusion h
  | cons x xs ih =>
      intro i j a hij hi hj
      cases i with
      | zero =>
          cases j with
          | zero => exact absurd rfl hij
          | succ n =>
              rw [List.get?] at hi
              cases hi
              rw [List.get?] at hj
              have hmem : x ∈ xs := List.get?_mem hj
              have hpos : 0 < xs.count x := List.count_pos_iff.mpr hmem
              rw [List.count_cons_self]
              omega
      | succ m =>
          cases j with
          | zero =>
              rw [List.get?] at hj
              cases hj
              rw [List.get?] at hi
              have hmem : x ∈ xs := List.get?_mem hi
              have hpos : 0 < xs.count x := List.count_pos_iff.mpr hmem
              rw [List.count_cons_self]
              omega
          | succ n =>
              rw [List.get?] at hi hj
              have hmn : m ≠ n := fun hmn => hij (by rw [hmn])
              have h2 := ih hmn hi hj
              rw [List.count_cons]
              split
              · omega
              · omega

theorem coercedRow_eq (r : Row) : coercedRow r = coercedSpec r := by
  unfold coercedRow coercedSpec storeOk meshStore coVal
  cases validate_mass_surf r.mass_surf <;>
  cases validate_bool r.is_compat_interior_wall <;>
  cases validate_positive_float r.mesh_height "mesh_height" <;>
  cases validate_positive_float r.mesh_width "mesh_width" <;>
  cases validate_optional_int r.roll_pallet <;>
  cases convert_and_validate_colors r.color_names valid_colors <;>
  rfl

theorem coercedRow_codename (r : Row) : (coercedRow r).codename = r.codename := by
  rw [coercedRow_eq]; rfl

theorem rowMsgs_nil_dup {i : Nat} {dup : Bool} {row : Row}
    (h : rowMsgs i dup row = []) : dup = false := by
  rcases dup with _ | _
  · rfl
  · exfalso
    rw [rowMsgs] at h
    simp [List.append_eq_nil] at h

theorem rowMsgs_nil_presence {i : Nat} {dup : Bool} {row : Row}
    (h : rowMsgs i dup row = []) : presence_errors i row = [] := by
  rw [rowMsgs] at h
  simp [List.append_eq_nil] at h
  exact h.1

theorem dupMsg_mem_rowMsgs {i : Nat} {row : Row} : dupMsg i ∈ rowMsgs i true row := by
  rw [rowMsgs]
  simp

theorem emptyMsg_mem_rowMsgs {i : Nat} {dup : Bool} {row : Row} {c : String}
    (hc : c ∈ required_fields) (hnull : pyIsNull (rowGet row c) = true) :
    emptyMsg i c ∈ rowMsgs i dup row := by
  rw [rowMsgs]
  have : emptyMsg i c ∈ presence_errors i row := by
    rw [presence_errors]
    rw [List.mem_filterMap]
    exact ⟨c, hc, by rw [hnull]; rfl⟩
  simp [this]

theorem presence_nil_nonnull {i : Nat} {row : Row} (h : presence_errors i row = [])
    {c : String} (hc : c ∈ required_fields) : pyIsNull (rowGet row c) = false := by
  rw [presence_errors, List.filterMap_eq_nil_iff] at h
  have := h c hc
  by_cases hn : pyIsNull (rowGet row c) = true
  · rw [hn] at this; exact Option.noConfusion this
  · exact Bool.not_eq_true _ ▸ hn

theorem mem_msgsSpec {df : List Row} {i : Nat} {r : Row} {e : String}
    (hget : df.get? i = some r)
    (he : e ∈ rowMsgs i (dupFlag (codesOf df) r) r) : e ∈ msgsSpec df := by
  rw [msgsSpec, List.mem_flatten]
  exact ⟨rowSpecMsgs df (i, r), List.mem_map_of_mem _ (mem_enum_of_get? hget), he⟩

theorem mem_vdfSpec {df : List Row} {r' : Row} :
    r' ∈ vdfSpec df ↔ ∃ mr, mr ∈ df.enum ∧ rowSpecMsgs df mr = [] ∧ r' = coercedRow mr.2 := by
  simp only [vdfSpec, List.mem_map, List.mem_filter]
  constructor
  · rintro ⟨p, ⟨⟨mr, hmr, rfl⟩, hflag⟩, rfl⟩
    refine ⟨mr, hmr, ?_, rfl⟩
    simpa [List.isEmpty_iff] using hflag
  · rintro ⟨mr, hmr, hnil, rfl⟩
    exact ⟨(coercedRow mr.2, !(rowSpecMsgs df mr).isEmpty),
      ⟨⟨mr, hmr, rfl⟩, by simp [hnil]⟩, rfl⟩

theorem vdfSpec_sublist (df : List Row) : (vdfSpec df).Sublist (df.map coercedRow) := by
  unfold vdfSpec
  have h1 := List.filter_sublist (p := fun p : Row × Bool => !p.2)
    ((df.enum).map (fun mr => (coercedRow mr.2, !(rowSpecMsgs df mr).isEmpty)))
  have h2 := h1.map (fun p : Row × Bool => p.1)
  have h3 : ((df.enum).map
      (fun mr => (coercedRow mr.2, !(rowSpecMsgs df mr).isEmpty))).map
        (fun p : Row × Bool => p.1) = df.map coercedRow := by
    rw [List.map_map]
    have hcomp : ((fun p : Row × Bool => p.1) ∘
        (fun mr : Nat × Row => (coercedRow mr.2, !(rowSpecMsgs df mr).isEmpty))) =
        (coercedRow ∘ Prod.snd) := rfl
    rw [hcomp, ← List.map_map, List.enum_map_snd]
  rw [h3] at h2
  exact h2

theorem vdfSpec_codes_sublist (df : List Row) :
    ((vdfSpec df).map (fun r => r.codename)).Sublist (codesOf df) := by
  have h1 := (vdfSpec_sublist df).map (fun r : Row => r.codename)
  rw [List.map_map] at h1
  have h2 : df.map ((fun r : Row => r.codename) ∘ coercedRow) = codesOf df := by
    rw [codesOf]
    exact List.map_congr_left (fun r _ => coercedRow_codename r)
  rw [h2] at h1
  exact h1

theorem dupFlag_false_count {codes : List PyVal} {r : Row}
    (h : dupFlag codes r = false) : codes.count r.codename < 2 := by
  rw [dupFlag, decide_eq_false_iff_not] at h
  omega

theorem dupFlag_true_of_count {codes : List PyVal} {r : Row}
    (h : 2 ≤ codes.count r.codename) : dupFlag codes r = true := by
  rw [dupFlag, decide_eq_true_eq]
  exact h

/-!
Null-tracking lemmas: a null required cell stays null through the
coercion writes, while a row with no presence error keeps every
required cell non-null in its coerced form.  Together they show that a
row with a missing required field can never coincide with a surviving
row's coerced image.
-/

theorem pyIsNull_iff {v : PyVal} : pyIsNull v = true ↔ v = .vnan ∨ v = .vnone := by
  cases v <;> simp [pyIsNull]

theorem pyFloat_ok_nan {x : PyVal} (h : pyFloat x = .ok .nan) : x = .vnan := by
  cases x with
  | vstr s =>
      rw [pyFloat] at h
      cases hp : parseFloatStr s with
      | none => rw [hp] at h; exact Except.noConfusion h
      | some q => rw [hp] at h; simp at h
  | vnum q => simp [pyFloat] at h
  | vnan => rfl
  | vbool b => simp [pyFloat] at h
  | vnone => simp [pyFloat] at h
  | vint n => simp [pyFloat] at h
  | vlist xs => simp [pyFloat] at h

theorem validate_mass_surf_ok_shape {x v : PyVal} (h : validate_mass_surf x = .ok v) :
    (∃ q, v = .vnum q) ∨ (x = .vnan ∧ v = .vnan) := by
  rw [validate_mass_surf] at h
  cases hf : pyFloat x with
  | error e => rw [hf] at h; cases e <;> exact Except.noConfusion h
  | ok fv =>
      rw [hf] at h
      cases hlt : pyFloatLtZero fv with
      | true => simp [hlt] at h
      | false =>
          simp [hlt] at h
          cases fv with
          | fin q => rw [pyFloatVal] at h; exact Or.inl ⟨q, h.symm⟩
          | nan =>
              rw [pyFloatVal] at h
              exact Or.inr ⟨pyFloat_ok_nan hf, h.symm⟩

theorem validate_positive_float_ok_shape {x v : PyVal} {fn : String}
    (h : validate_positive_float x fn = .ok v) :
    (∃ q, v = .vnum q) ∨ (x = .vnan ∧ v = .vnan) := by
  rw [validate_positive_float] at h
  cases hf : pyFloat x with
  | error e => rw [hf] at h; cases e <;> exact Except.noConfusion h
  | ok fv =>
      rw [hf] at h
      cases hlt : pyFloatLtZero fv with
      | true => simp [hlt] at h
      | false =>
          simp [hlt] at h
          cases fv with
          | fin q => rw [pyFloatVal] at h; exact Or.inl ⟨q, h.symm⟩
          | nan =>
              rw [pyFloatVal] at h
              exact Or.inr ⟨pyFloat_ok_nan hf, h.symm⟩

theorem validate_bool_ok_shape {x v : PyVal} (h : validate_bool x = .ok v) :
    ∃ b, v = .vbool b := by
  rw [validate_bool] at h
  by_cases h1 : ([PyVal.vstr "vrai", .vstr "true", .vint 1, .vstr "1"].contains
      (.vstr (pyLower (pyStr x)))) = true
  · rw [if_pos h1] at h; cases h; exact ⟨true, rfl⟩
  · rw [if_neg h1] at h
    by_cases h2 : ([PyVal.vstr "faux", .vstr "false", .vint 0, .vstr "0"].contains
        (.vstr (pyLower (pyStr x)))) = true
    · rw [if_pos h2] at h; cases h; exact ⟨false, rfl⟩
    · rw [if_neg h2] at h; exact Except.noConfusion h

theorem convert_colors_ok_shape {x v : PyVal} {pc : List String}
    (h : convert_and_validate_colors x pc = .ok v) : ∃ xs, v = .vlist xs := by
  cases x with
  | vstr s =>
      rw [convert_and_validate_colors] at h
      by_cases hall : ((pySplitComma s).all (fun color => pc.contains (pyStrip color))) = true
      · rw [if_pos hall] at h; cases h; exact ⟨_, rfl⟩
      · rw [if_neg hall] at h; exact Except.noConfusion h
  | vnum q => exact Except.noConfusion h
  | vnan => exact Except.noConfusion h
  | vbool b => exact Except.noConfusion h
  | vnone => exact Except.noConfusion h
  | vint n => exact Except.noConfusion h
  | vlist xs => exact Except.noConfusion h

theorem rowGet_coerced_codename (r : Row) :
    rowGet (coercedRow r) "codename" = r.codename := by rw [coercedRow_eq]; rfl

theorem rowGet_coerced_trame (r : Row) :
    rowGet (coercedRow r) "trame" = r.trame := by rw [coercedRow_eq]; rfl

theorem rowGet_coerced_mass (r : Row) :
    rowGet (coercedRow r) "mass_surf" = coVal r.mass_surf (validate_mass_surf r.mass_surf) := by
  rw [coercedRow_eq]; rfl

theorem rowGet_coerced_bool (r : Row) :
    rowGet (coercedRow r) "is_compat_interior_wall" =
      coVal r.is_compat_interior_wall (validate_bool r.is_compat_interior_wall) := by
  rw [coercedRow_eq]; rfl

theorem rowGet_coerced_height (r : Row) :
    rowGet (coercedRow r) "mesh_height" =
      coVal r.mesh_height (validate_positive_float r.mesh_height "mesh_height") := by
  rw [coercedRow_eq]; rfl

theorem rowGet_coerced_width (r : Row) :
    rowGet (coercedRow r) "mesh_width" =
      (match validate_positive_float r.mesh_height "mesh_height" with
       | .ok _ => coVal r.mesh_width (validate_positive_float r.mesh_width "mesh_width")
       | .error _ => r.mesh_width) := by
  rw [coercedRow_eq]; rfl

theorem rowGet_coerced_colors (r : Row) :
    rowGet (coercedRow r) "color_names" =
      coVal r.color_names (convert_and_validate_colors r.color_names valid_colors) := by
  rw [coercedRow_eq]; rfl

/-- Cells of the coerced image of a row with no presence error are
non-null at every required field: validators that succeed store
non-null coerced values, and failing ones leave the (non-null)
original in place. -/
theorem coerced_nonnull {i : Nat} {r : Row} (hp : presence_errors i r = [])
    {c : String} (hc : c ∈ required_fields) :
    pyIsNull (rowGet (coercedRow r) c) = false := by
  have horig := fun c hc => presence_nil_nonnull hp (c := c) hc
  rw [required_fields] at hc
  simp only [List.mem_cons, List.not_mem_nil, or_false] at hc
  rcases hc with rfl | rfl | rfl | rfl | rfl | rfl | rfl
  · rw [rowGet_coerced_codename]
    exact horig "codename" (by rw [required_fields]; simp)
  · rw [rowGet_coerced_trame]
    exact horig "trame" (by rw [required_fields]; simp)
  · rw [rowGet_coerced_mass]
    cases hres : validate_mass_surf r.mass_surf with
    | ok v =>
        rcases validate_mass_surf_ok_shape hres with ⟨q, rfl⟩ | ⟨hx, rfl⟩
        · rfl
        · have := horig "mass_surf" (by rw [required_fields]; simp)
          rw [rowGet] at this
          rw [hx] at this
          exact absurd this (by simp [pyIsNull])
    | error e =>
        rw [coVal]
        exact horig "mass_surf" (by rw [required_fields]; simp)
  · rw [rowGet_coerced_bool]
    cases hres : validate_bool r.is_compat_interior_wall with
    | ok v =>
        rcases validate_bool_ok_shape hres with ⟨b, rfl⟩
        rfl
    | error e =>
        rw [coVal]
        exact horig "is_compat_interior_wall" (by rw [required_fields]; simp)
  · rw [rowGet_coerced_height]
    cases hres : validate_positive_float r.mesh_height "mesh_height" with
    | ok v =>
        rcases validate_positive_float_ok_shape hres with ⟨q, rfl⟩ | ⟨hx, rfl⟩
        · rfl
        · have := horig "mesh_height" (by rw [required_fields]; simp)
          rw [rowGet] at this
          rw [hx] at this
          exact absurd this (by simp [pyIsNull])
    | error e =>
        rw [coVal]
        exact horig "mesh_height" (by rw [required_fields]; simp)
  · rw [rowGet_coerced_width]
    cases hh : validate_positive_float r.mesh_height "mesh_height" with
    | ok hv =>
        cases hres : validate_positive_float r.mesh_width "mesh_width" with
        | ok v =>
            rcases validate_positive_float_ok_shape hres with ⟨q, rfl⟩ | ⟨hx, rfl⟩
            · rfl
            · have := horig "mesh_width" (by rw [required_fields]; simp)
              rw [rowGet] at this
              rw [hx] at this
              exact absurd this (by simp [pyIsNull])
        | error e =>
            rw [coVal]
            exact horig "mesh_width" (by rw [required_fields]; simp)
    | error e =>
        exact horig "mesh_width" (by rw [required_fields]; simp)
  · rw [rowGet_coerced_colors]
    cases hres : convert_and_validate_colors r.color_names valid_colors with
    | ok v =>
        rcases convert_colors_ok_shape hres with ⟨xs, rfl⟩
        rfl
    | error e =>
        rw [coVal]
        exact horig "color_names" (by rw [required_fields]; simp)

/-- A null required cell stays null in the coerced image: the
validators either succeed returning NaN-as-NaN (the float ones), or
fail and leave the cell untouched. -/
theorem coerced_null_preserved {r : Row} {c : String} (hc : c ∈ required_fields)
    (hnull : pyIsNull (rowGet r c) = true) :
    pyIsNull (rowGet (coercedRow r) c) = true := by
  rw [required_fields] at hc
  simp only [List.mem_cons, List.not_mem_nil, or_false] at hc
  rcases hc with rfl | rfl | rfl | rfl | rfl | rfl | rfl
  · rw [rowGet_coerced_codename]; rw [rowGet] at hnull; exact hnull
  · rw [rowGet_coerced_trame]; rw [rowGet] at hnull; exact hnull
  · rw [rowGet] at hnull
    rcases pyIsNull_iff.mp hnull with hv | hv <;>
    · rw [rowGet_coerced_mass, hv]; decide
  · rw [rowGet] at hnull
    rcases pyIsNull_iff.mp hnull with hv | hv <;>
    · rw [rowGet_coerced_bool, hv]; decide
  · rw [rowGet] at hnull
    rcases pyIsNull_iff.mp hnull with hv | hv <;>
    · rw [rowGet_coerced_height, hv]; decide
  · rw [rowGet] at hnull
    rcases pyIsNull_iff.mp hnull with hv | hv <;>
    · rw [rowGet_coerced_width, hv]
      cases validate_positive_float r.mesh_height "mesh_height" with
      | ok hv2 => rfl
      | error e => rfl
  · rw [rowGet] at hnull
    rcases pyIsNull_iff.mp hnull with hv | hv <;>
    · rw [rowGet_coerced_colors, hv]; decide

/-- Claim C1, counterexample: a row whose `mesh_height` and `mesh_width`
are both unparsable yields exactly one error message, the one for
`mesh_height`; no `mesh_width` message is collected, contradicting
"one error for each of the two fields". -/
theorem C1_counterexample :
    ingest_and_validate_csv [c1row] =
      .ok ([], ["Error at line 1: mesh_height must be a float. Got abc"]) ∧
    "Error at line 1: mesh_width must be a float. Got xyz" ∉
      ["Error at line 1: mesh_height must be a float. Got abc"] :=
  ⟨rfl, by decide⟩

/-- Claim C1, as amended: a successful loop iteration collects its row
errors as the concatenation of independent per-check components -
presence of each required field, duplicate-code, trame, mass_surf,
boolean, the mesh pair, optional integer, colors - so no check's
failure suppresses another check's component; the one exception is
inside the mesh pair itself: `mesh_height` and `mesh_width` share one
try-block, so when `mesh_height` fails its validation the pair
contributes only the `mesh_height` message and the `mesh_width` check
is skipped. -/
theorem C1_amended (i : Nat) (dup : Bool) (row : Row) (out : Row × List String)
    (h : validateRow i dup row = .ok out) :
    out.2 = presence_errors i row ++ (if dup then [dupMsg i] else []) ++
      veMsgs i (validate_trame row.trame valid_trames) ++
      veMsgs i (validate_mass_surf row.mass_surf) ++
      veMsgs i (validate_bool row.is_compat_interior_wall) ++
      meshMsgs i row ++
      veMsgs i (validate_optional_int row.roll_pallet) ++
      veMsgs i (convert_and_validate_colors row.color_names valid_colors) ∧
    (∀ m1 : String,
      validate_positive_float row.mesh_height "mesh_height" = .error (.valueError m1) →
      meshMsgs i row = [errLine i m1]) := by
  constructor
  · rw [validateRow_ok h, rowMsgs]
  · intro m1 hm1
    rw [meshMsgs, hm1]

theorem C1_amended_witness :
    validateRow 0 false c1row =
      .ok (c1coerced, ["Error at line 1: mesh_height must be a float. Got abc"]) ∧
    meshMsgs 0 c1row = [errLine 0 "mesh_height must be a float. Got abc"] :=
  ⟨rfl, (C1_amended 0 false c1row
      (c1coerced, ["Error at line 1: mesh_height must be a float. Got abc"]) rfl).2
      "mesh_height must be a float. Got abc" rfl⟩

/-- Claim C2: the code disagrees with the claim.  For the raw value
`"-3"`, which parses as the negative float `-3.0`, the non-negative
raise inside the `try` is caught by the validator's own
`except ValueError`, so the surfaced message is the NotNumeric-style
"must be a float" text with the raw value, not the claimed
"must be non-negative. Got -3.0". -/
theorem C2_bug :
    validate_mass_surf (.vstr "-3") =
      .error (.valueError "mass_surf must be a float. Got -3") ∧
    validate_positive_float (.vstr "-3") "mesh_height" =
      .error (.valueError "mesh_height must be a float. Got -3") :=
  ⟨rfl, rfl⟩

/-- Claim C3: the code disagrees with the claim.  A row whose
`color_names` is missing (a NaN cell) makes `convert_and_validate_colors`
raise `AttributeError` from `.split`; the row loop catches only
`ValueError`, so the exception escapes `ingest_and_validate_csv` (and
`main`) and aborts the whole batch instead of becoming a row error. -/
theorem C3_bug :
    ingest_and_validate_csv [c3row] =
      .error (.attributeError "\x27float\x27 object has no attribute \x27split\x27") ∧
    mainRun [c3row] =
      .error (.attributeError "\x27float\x27 object has no attribute \x27split\x27") :=
  ⟨rfl, rfl⟩

/-- Claim C7, counterexample: on `"white, blue"` every trimmed element
is in the vocabulary, so the validator succeeds, but it returns the
untrimmed split elements `["white", " blue"]`, not the claimed trimmed
list `["white", "blue"]`. -/
theorem C7_counterexample :
    convert_and_validate_colors (.vstr "white, blue") valid_colors =
      .ok (.vlist ["white", " blue"]) ∧
    PyVal.vlist ["white", " blue"] ≠ PyVal.vlist ["white", "blue"] :=
  ⟨rfl, by decide⟩

/-- Claim C7, as amended: the validator succeeds iff every comma-split
element is in the vocabulary after trimming, and on success returns
the ordered list of the original, untrimmed comma-split elements
(order and duplicates preserved); trimming is applied only inside the
membership test.  On failure it raises the invalid-list message. -/
theorem C7_amended (s : String) :
    (((pySplitComma s).all (fun color => valid_colors.contains (pyStrip color))) = true →
      convert_and_validate_colors (.vstr s) valid_colors = .ok (.vlist (pySplitComma s))) ∧
    (((pySplitComma s).all (fun color => valid_colors.contains (pyStrip color))) = false →
      convert_and_validate_colors (.vstr s) valid_colors =
        .error (.valueError ("Invalid color names in the list. Got " ++ s))) := by
  constructor <;> intro hall <;> simp only [convert_and_validate_colors]
  · rw [if_pos hall]
  · rw [if_neg (by rw [hall]; exact Bool.false_ne_true)]

theorem C7_amended_witness :
    ((pySplitComma "white, blue").all
      (fun color => valid_colors.contains (pyStrip color))) = true ∧
    convert_and_validate_colors (.vstr "white, blue") valid_colors =
      .ok (.vlist (pySplitComma "white, blue")) :=
  ⟨rfl, (C7_amended "white, blue").1 rfl⟩

/-- Claim C4: any two rows of the original batch with the same
codename each contribute a `Duplicate codename` message, and no row
carrying that codename survives into the returned filtered dataframe,
however valid their other fields are. -/
theorem C4_duplicate_rows {df : List Row} {i j : Nat} {ri rj : Row}
    {vdf : List Row} {msgs : List String}
    (hij : i ≠ j) (hi : df.get? i = some ri) (hj : df.get? j = some rj)
    (hcode : ri.codename = rj.codename)
    (h : ingest_and_validate_csv df = .ok (vdf, msgs)) :
    dupMsg i ∈ msgs ∧ dupMsg j ∈ msgs ∧ ∀ r ∈ vdf, r.codename ≠ ri.codename := by
  obtain ⟨hv, hm⟩ := ingest_ok h
  subst hv; subst hm
  have hci : (codesOf df).get? i = some ri.codename := by
    rw [codesOf, List.get?_map, hi]
    simp
  have hcj : (codesOf df).get? j = some ri.codename := by
    rw [codesOf, List.get?_map, hj]
    simp [hcode]
  have hcount : 2 ≤ (codesOf df).count ri.codename := two_le_count_of_get? hij hci hcj
  have hdupi : dupFlag (codesOf df) ri = true := dupFlag_true_of_count hcount
  have hdupj : dupFlag (codesOf df) rj = true :=
    dupFlag_true_of_count (by rw [← hcode]; exact hcount)
  refine ⟨?_, ?_, ?_⟩
  · exact mem_msgsSpec hi (by rw [hdupi]; exact dupMsg_mem_rowMsgs)
  · exact mem_msgsSpec hj (by rw [hdupj]; exact dupMsg_mem_rowMsgs)
  · intro r hr heq
    rcases mem_vdfSpec.mp hr with ⟨mr, hmr, hnil, rfl⟩
    rw [rowSpecMsgs] at hnil
    have hflag := rowMsgs_nil_dup hnil
    have hlt := dupFlag_false_count hflag
    rw [coercedRow_codename] at heq
    rw [heq] at hlt
    omega

theorem C4_witness :
    ingest_and_validate_csv [exRow, exRow] =
      .ok ([], ["Duplicate codename found at line 1.", "Duplicate codename found at line 2."]) ∧
    (dupMsg 0 ∈ ["Duplicate codename found at line 1.", "Duplicate codename found at line 2."] ∧
     dupMsg 1 ∈ ["Duplicate codename found at line 1.", "Duplicate codename found at line 2."] ∧
     ∀ r ∈ ([] : List Row), r.codename ≠ exRow.codename) :=
  ⟨rfl, @C4_duplicate_rows [exRow, exRow] 0 1 exRow exRow []
    ["Duplicate codename found at line 1.", "Duplicate codename found at line 2."]
    (by decide) rfl rfl rfl rfl⟩

/-- Claim C8: invariant of a completed run.  No codename occurs twice
among the returned rows, because every row whose codename occurs at
least twice in the original batch is flagged, given a non-empty error
list and filtered out before the dataframe is returned. -/
theorem C8_unique_codenames {df : List Row} {vdf : List Row} {msgs : List String}
    (h : ingest_and_validate_csv df = .ok (vdf, msgs)) :
    (∀ c, (vdf.map (fun r => r.codename)).count c ≤ 1) ∧
    (∀ c, 2 ≤ (codesOf df).count c → ∀ r ∈ vdf, r.codename ≠ c) := by
  obtain ⟨hv, hm⟩ := ingest_ok h
  subst hv; subst hm
  have hexcl : ∀ c, 2 ≤ (codesOf df).count c → ∀ r ∈ vdfSpec df, r.codename ≠ c := by
    intro c hc r hr heq
    rcases mem_vdfSpec.mp hr with ⟨mr, hmr, hnil, rfl⟩
    rw [rowSpecMsgs] at hnil
    have hflag := rowMsgs_nil_dup hnil
    have hlt := dupFlag_false_count hflag
    rw [coercedRow_codename] at heq
    rw [heq] at hlt
    omega
  refine ⟨?_, hexcl⟩
  intro c
  by_cases hc : 2 ≤ (codesOf df).count c
  · have hnot : c ∉ (vdfSpec df).map (fun r => r.codename) := by
      intro hmem
      rcases List.mem_map.mp hmem with ⟨r, hr, hrc⟩
      exact hexcl c hc r hr hrc
    rw [List.count_eq_zero.mpr hnot]
    omega
  · have hle := (vdfSpec_codes_sublist df).count_le c
    omega

theorem C8_witness :
    ingest_and_validate_csv [exRow] = .ok ([exRowCoerced], []) ∧
    ((∀ c, (([exRowCoerced] : List Row).map (fun r => r.codename)).count c ≤ 1) ∧
     (∀ c, 2 ≤ (codesOf [exRow]).count c → ∀ r ∈ ([exRowCoerced] : List Row), r.codename ≠ c)) :=
  ⟨rfl, C8_unique_codenames rfl⟩

/-- Claim C9: a row with a null required field contributes the
`Empty value` message naming that field and the 1-based line number,
and its coerced image never appears among the returned rows (a
surviving row's coerced cells are non-null at every required field,
while the bad row's null cell stays null through coercion). -/
theorem C9_missing_required {df : List Row} {i : Nat} {ri : Row} {fld : String}
    {vdf : List Row} {msgs : List String}
    (hget : df.get? i = some ri) (hf : fld ∈ required_fields)
    (hnull : pyIsNull (rowGet ri fld) = true)
    (h : ingest_and_validate_csv df = .ok (vdf, msgs)) :
    emptyMsg i fld ∈ msgs ∧ coercedRow ri ∉ vdf := by
  obtain ⟨hv, hm⟩ := ingest_ok h
  subst hv; subst hm
  constructor
  · exact mem_msgsSpec hget (emptyMsg_mem_rowMsgs hf hnull)
  · intro hmem
    rcases mem_vdfSpec.mp hmem with ⟨mr, hmr, hnil, heq⟩
    rw [rowSpecMsgs] at hnil
    have hpres := rowMsgs_nil_presence hnil
    have hnn := coerced_nonnull hpres hf
    have hn := coerced_null_preserved hf hnull
    rw [← heq] at hnn
    rw [hnn] at hn
    exact Bool.noConfusion hn

theorem C9_witness :
    ingest_and_validate_csv [c9row] =
      .ok ([], ["Empty value at line 1 for \x27trame\x27.",
                "Error at line 1: Value nan for trame is not valid."]) ∧
    (emptyMsg 0 "trame" ∈ ["Empty value at line 1 for \x27trame\x27.",
        "Error at line 1: Value nan for trame is not valid."] ∧
     coercedRow c9row ∉ ([] : List Row)) :=
  ⟨rfl, @C9_missing_required [c9row] 0 c9row "trame" []
    ["Empty value at line 1 for \x27trame\x27.",
     "Error at line 1: Value nan for trame is not valid."]
    rfl (by decide) rfl rfl⟩

/-- Claim C10: pandas `duplicated` treats NaN codenames as equal, so in
a batch with two rows whose codename is null each of them is flagged
as a duplicate and receives the `Duplicate codename` message on top of
its `Empty value` message for codename. -/
theorem C10_null_codename_duplicates {df : List Row} {i j : Nat} {ri rj : Row}
    {vdf : List Row} {msgs : List String}
    (hij : i ≠ j) (hi : df.get? i = some ri) (hj : df.get? j = some rj)
    (hci : ri.codename = .vnan) (hcj : rj.codename = .vnan)
    (h : ingest_and_validate_csv df = .ok (vdf, msgs)) :
    (dupMsg i ∈ msgs ∧ dupMsg j ∈ msgs) ∧
    (emptyMsg i "codename" ∈ msgs ∧ emptyMsg j "codename" ∈ msgs) := by
  obtain ⟨hv, hm⟩ := ingest_ok h
  subst hv; subst hm
  have hgi : (codesOf df).get? i = some PyVal.vnan := by
    rw [codesOf, List.get?_map, hi]
    simp [hci]
  have hgj : (codesOf df).get? j = some PyVal.vnan := by
    rw [codesOf, List.get?_map, hj]
    simp [hcj]
  have hcount : 2 ≤ (codesOf df).count PyVal.vnan := two_le_count_of_get? hij hgi hgj
  have hdupi : dupFlag (codesOf df) ri = true :=
    dupFlag_true_of_count (by rw [hci]; exact hcount)
  have hdupj : dupFlag (codesOf df) rj = true :=
    dupFlag_true_of_count (by rw [hcj]; exact hcount)
  have hnulli : pyIsNull (rowGet ri "codename") = true := by
    rw [rowGet, hci]; rfl
  have hnullj : pyIsNull (rowGet rj "codename") = true := by
    rw [rowGet, hcj]; rfl
  refine ⟨⟨?_, ?_⟩, ?_, ?_⟩
  · exact mem_msgsSpec hi (by rw [hdupi]; exact dupMsg_mem_rowMsgs)
  · exact mem_msgsSpec hj (by rw [hdupj]; exact dupMsg_mem_rowMsgs)
  · exact mem_msgsSpec hi (emptyMsg_mem_rowMsgs (by decide) hnulli)
  · exact mem_msgsSpec hj (emptyMsg_mem_rowMsgs (by decide) hnullj)

theorem C10_witness :
    ingest_and_validate_csv [c10row, c10row] =
      .ok ([], ["Empty value at line 1 for \x27codename\x27.",
                "Duplicate codename found at line 1.",
                "Empty value at line 2 for \x27codename\x27.",
                "Duplicate codename found at line 2."]) ∧
    ((dupMsg 0 ∈ ["Empty value at line 1 for \x27codename\x27.",
        "Duplicate codename found at line 1.",
        "Empty value at line 2 for \x27codename\x27.",
        "Duplicate codename found at line 2."] ∧
      dupMsg 1 ∈ ["Empty value at line 1 for \x27codename\x27.",
        "Duplicate codename found at line 1.",
        "Empty value at line 2 for \x27codename\x27.",
        "Duplicate codename found at line 2."]) ∧
     (emptyMsg 0 "codename" ∈ ["Empty value at line 1 for \x27codename\x27.",
        "Duplicate codename found at line 1.",
        "Empty value at line 2 for \x27codename\x27.",
        "Duplicate codename found at line 2."] ∧
      emptyMsg 1 "codename" ∈ ["Empty value at line 1 for \x27codename\x27.",
        "Duplicate codename found at line 1.",
        "Empty value at line 2 for \x27codename\x27.",
        "Duplicate codename found at line 2."])) :=
  ⟨rfl, @C10_null_codename_duplicates [c10row, c10row] 0 1 c10row c10row []
    ["Empty value at line 1 for \x27codename\x27.",
     "Duplicate codename found at line 1.",
     "Empty value at line 2 for \x27codename\x27.",
     "Duplicate codename found at line 2."]
    (by decide) rfl rfl rfl rfl rfl⟩

theorem ok_bind {α β : Type} (a : α) (f : α → Except PyError β) :
    (Except.ok a >>= f) = f a := rfl

/-- Claim C5: `main` invokes the persistence sink iff the collected
error report is empty.  With a non-empty report it prints
"Errors encountered:" followed by every message and inserts nothing -
not even the surviving rows - and with an empty report it hands all
surviving rows to the sink and prints only the confirmation line. -/
theorem C5_sink_policy {df : List Row} {o : MainOut} (h : mainRun df = .ok o) :
    (o.sink_called = true ↔ ∃ vdf, ingest_and_validate_csv df = .ok (vdf, [])) ∧
    (∀ vdf msgs, ingest_and_validate_csv df = .ok (vdf, msgs) →
      (msgs = [] → o.sink_called = true ∧ o.inserted = vdf ∧
        o.printed = ["Data ingested and validated successfully."]) ∧
      (msgs ≠ [] → o.sink_called = false ∧ o.inserted = [] ∧
        o.printed = "Errors encountered:" :: msgs)) := by
  rw [mainRun] at h
  cases hing : ingest_and_validate_csv df with
  | error e => rw [hing] at h; exact Except.noConfusion h
  | ok pm =>
      obtain ⟨vdf0, msgs0⟩ := pm
      rw [hing] at h
      cases hb : msgs0.isEmpty with
      | true =>
          simp only [hb, if_true] at h
          injection h with h2
          subst h2
          have hmsgs : msgs0 = [] := List.isEmpty_iff.mp hb
          subst hmsgs
          refine ⟨⟨fun _ => ⟨vdf0, rfl⟩, fun _ => rfl⟩, ?_⟩
          intro vdf msgs hing2
          injection hing2 with hp
          injection hp with hv1 hm1
          subst hv1; subst hm1
          exact ⟨fun _ => ⟨rfl, rfl, rfl⟩, fun hne => absurd rfl hne⟩
      | false =>
          simp only [hb, Bool.false_eq_true, if_false] at h
          injection h with h2
          subst h2
          have hmsgs : msgs0 ≠ [] := by
            intro hh
            subst hh
            exact absurd hb (by decide)
          refine ⟨⟨fun hs => Bool.noConfusion hs, ?_⟩, ?_⟩
          · rintro ⟨vdf, hvdf⟩
            injection hvdf with hp
            injection hp with hv1 hm1
            exact (hmsgs hm1).elim
          · intro vdf msgs hing2
            injection hing2 with hp
            injection hp with hv1 hm1
            subst hv1; subst hm1
            exact ⟨fun h0 => absurd h0 hmsgs, fun _ => ⟨rfl, rfl, rfl⟩⟩

theorem C5_witness :
    mainRun [exRow, c5row] = .ok c5out ∧
    c5out.sink_called = false ∧ c5out.inserted = [] ∧
    c5out.printed = "Errors encountered:" ::
      ["Error at line 2: mass_surf must be a float. Got -3"] := by
  refine ⟨rfl, ?_⟩
  have hc := ((@C5_sink_policy [exRow, c5row] c5out rfl).2
    [exRowCoerced] ["Error at line 2: mass_surf must be a float. Got -3"] rfl).2
    (by decide)
  exact hc

/-- Claim C6: a row with every required field present, a codename
unique in the batch, and every field validator succeeding passes
through the loop with an empty error list, appears in the returned
dataframe as the coerced record - e.g. the boolean coerced to `true`
and the colors to the split list - and the returned dataframe is an
order-preserving subsequence of the coerced originals, so the row
keeps its original relative position. -/
theorem C6_valid_row_accepted {df : List Row} {i : Nat} {row : Row}
    {mv bv mhv mwv rv cv : PyVal} {vdf : List Row} {msgs : List String}
    (hget : df.get? i = some row)
    (hnodup : (codesOf df).count row.codename = 1)
    (hpres : ∀ c ∈ required_fields, pyIsNull (rowGet row c) = false)
    (ht : validate_trame row.trame valid_trames = .ok ())
    (hm : validate_mass_surf row.mass_surf = .ok mv)
    (hb : validate_bool row.is_compat_interior_wall = .ok bv)
    (hmh : validate_positive_float row.mesh_height "mesh_height" = .ok mhv)
    (hmw : validate_positive_float row.mesh_width "mesh_width" = .ok mwv)
    (hr : validate_optional_int row.roll_pallet = .ok rv)
    (hc : convert_and_validate_colors row.color_names valid_colors = .ok cv)
    (h : ingest_and_validate_csv df = .ok (vdf, msgs)) :
    validateRow i (dupFlag (codesOf df) row) row =
      .ok ({ row with
               mass_surf := mv, is_compat_interior_wall := bv,
               mesh_height := mhv, mesh_width := mwv, roll_pallet := rv,
               color_names := cv }, []) ∧
    { row with
      mass_surf := mv, is_compat_interior_wall := bv,
      mesh_height := mhv, mesh_width := mwv, roll_pallet := rv,
      color_names := cv } ∈ vdf ∧
    vdf.Sublist (df.map coercedRow) := by
  obtain ⟨hv, hmsp⟩ := ingest_ok h
  subst hv; subst hmsp
  have hpresnil : presence_errors i row = [] := by
    rw [presence_errors, List.filterMap_eq_nil_iff]
    intro c hcmem
    simp [hpres c hcmem]
  have hdup : dupFlag (codesOf df) row = false := by
    rw [dupFlag, hnodup]
    rfl
  have hcoerced : coercedRow row =
      { row with
        mass_surf := mv, is_compat_interior_wall := bv,
        mesh_height := mhv, mesh_width := mwv, roll_pallet := rv,
        color_names := cv } := by
    rw [coercedRow_eq]
    unfold coercedSpec
    rw [hm, hb, hmh, hmw, hr, hc]
    rfl
  have hrowmsgs : rowMsgs i false row = [] := by
    rw [rowMsgs, hpresnil, ht, hm, hb, hr, hc, meshMsgs, hmh, hmw]
    simp [veMsgs]
  refine ⟨?_, ?_, ?_⟩
  · rw [hdup]
    simp only [validateRow, hpresnil, List.nil_append, Bool.false_eq_true, if_false,
      List.append_nil, ht, hm, hb, hr, hc]
    simp only [tryBlockU, ok_bind, tryBlock, meshBlock, hmh, hmw]
  · apply mem_vdfSpec.mpr
    refine ⟨(i, row), mem_enum_of_get? hget, ?_, ?_⟩
    · rw [rowSpecMsgs]
      rw [show dupFlag (codesOf df) (i, row).2 = false from hdup]
      exact hrowmsgs
    · exact hcoerced.symm
  · exact vdfSpec_sublist df

theorem C6_witness :
    ingest_and_validate_csv [exRow] = .ok ([exRowCoerced], []) ∧
    { exRow with
      mass_surf := PyVal.vnum (mkRat 25 2), is_compat_interior_wall := .vbool true,
      mesh_height := .vnum 2, mesh_width := .vnum 1, roll_pallet := .vnone,
      color_names := .vlist ["white", "blue"] } ∈ [exRowCoerced] :=
  ⟨rfl, (@C6_valid_row_accepted [exRow] 0 exRow (.vnum (mkRat 25 2)) (.vbool true)
    (.vnum 2) (.vnum 1) .vnone (.vlist ["white", "blue"]) [exRowCoerced] []
    rfl (by decide) (by decide) rfl rfl rfl rfl rfl rfl rfl rfl).2.1⟩

